import Mathlib

/-!
Verification of `little_science_utilities` (themes.py and utils.py).

Python dictionaries are modelled as association lists with first-binding-wins
lookup; the Python merge of dict `a` overridden by dict `b` is modelled as the
list `b ++ a`, so that under `dlookup` the bindings of `b` shadow those of `a`.
Rationals stand in for the Python floats (all constants involved are exactly
representable). External collaborators (matplotlib, tabulate, the file system)
are modelled by their documented interfaces: `mpl.rc_context` as
snapshot-update-restore on the rcParams mapping, the table formatter and the
glob result as parameters.
-/

/-- A matplotlib rcParams value: number, string, list of strings, boolean or a
numeric pair, covering every value occurring in the style dictionaries of
themes.py. -/
inductive RcVal where
  | num (q : ℚ)
  | str (s : String)
  | strs (l : List String)
  | bool (b : Bool)
  | pair (x y : ℚ)
  deriving DecidableEq, Repr

/-- A Python dict of rendering parameters, as an association list. -/
abbrev StyleDict := List (String × RcVal)

/-- Lookup in a Python dict modelled as an association list: the first binding
for a key wins. -/
def dlookup (d : StyleDict) (k : String) : Option RcVal :=
  (d.find? (fun kv => kv.1 == k)).map Prod.snd

/-- Python dict merge where the bindings of `b` override the bindings of `a`
(the double-splat merge of `a` then `b`): modelled as `b ++ a` under `dlookup`
first-binding-wins semantics. -/
def pyMerge (a b : StyleDict) : StyleDict := b ++ a

/-- `Styles.__init__` from themes.py, with the class registry `__styles__`
passed as a parameter. Starting from the dictionary of the first listed name,
when more than one name is listed it iterates over ALL listed names, each step
merging the accumulator over the named dictionary (accumulator wins on
conflicts). An unregistered name raises Python `KeyError` (a `LookupError`),
modelled as `Except.error`; an empty name list raises `IndexError`. -/
def stylesInit (registry : String → Option StyleDict) :
    List String → Except String StyleDict
  | [] => Except.error "IndexError: tuple index out of range"
  | s0 :: rest =>
    match registry s0 with
    | none => Except.error s0
    | some d0 =>
      if rest = [] then Except.ok d0
      else
        List.foldlM
          (fun acc s =>
            match registry s with
            | none => Except.error s
            | some d => Except.ok (pyMerge d acc))
          d0 (s0 :: rest)

/-- Modelled from the spec words, for the refinement comparison of claim C1:
the override of the last-listed dictionary by the one before it, and so on,
ending with the first-listed dictionary, so the first listed name wins ties.
Under the `b ++ a` encoding of override this is exactly the concatenation of
the named dictionaries in listed order. -/
def specMergedStyle (registry : String → Option StyleDict)
    (names : List String) : StyleDict :=
  List.flatten (names.filterMap registry)

lemma find?_append_opt (p : String × RcVal → Bool) (a b : List (String × RcVal)) :
    (a ++ b).find? p = ((a.find? p).orElse fun _ => b.find? p) := by
  induction a with
  | nil => rfl
  | cons x a ih =>
    by_cases h : p x
    · simp [List.find?_cons, h]
    · simp [List.find?_cons, h, ih]

lemma dlookup_append (a b : StyleDict) (k : String) :
    dlookup (a ++ b) k = ((dlookup a k).orElse fun _ => dlookup b k) := by
  unfold dlookup
  rw [find?_append_opt]
  cases a.find? (fun kv => kv.1 == k) <;> rfl

lemma opt_orElse_assoc (a b c : Option RcVal) :
    ((a.orElse fun _ => b).orElse fun _ => c) =
      (a.orElse fun _ => (b.orElse fun _ => c)) := by
  cases a <;> rfl

lemma opt_orElse_self_left (a b : Option RcVal) :
    (a.orElse fun _ => (a.orElse fun _ => b)) = (a.orElse fun _ => b) := by
  cases a <;> rfl

lemma opt_orElse_none_right (a : Option RcVal) :
    (a.orElse fun _ => none) = a := by
  cases a <;> rfl

lemma dlookup_nil (k : String) : dlookup [] k = none := rfl

lemma dlookup_foldl_merge (ds : List StyleDict) (init : StyleDict) (k : String) :
    dlookup (ds.foldl (fun acc d => pyMerge d acc) init) k =
      ((dlookup init k).orElse fun _ => dlookup (List.flatten ds) k) := by
  induction ds generalizing init with
  | nil =>
    simp [List.flatten, dlookup_nil, opt_orElse_none_right]
  | cons d ds ih =>
    rw [List.foldl_cons, ih]
    show ((dlookup (pyMerge d init) k).orElse fun _ => dlookup (List.flatten ds) k) = _
    rw [show pyMerge d init = init ++ d from rfl, dlookup_append,
      List.flatten_cons, dlookup_append, opt_orElse_assoc]

lemma stylesFoldM_ok (registry : String → Option StyleDict) (l : List String)
    (init : StyleDict) (hall : ∀ s ∈ l, (registry s).isSome) :
    List.foldlM
        (fun acc s =>
          match registry s with
          | none => Except.error s
          | some d => Except.ok (pyMerge d acc))
        init l =
      Except.ok (l.foldl (fun acc s => pyMerge ((registry s).getD []) acc) init) := by
  induction l generalizing init with
  | nil => rfl
  | cons s l ih =>
    obtain ⟨d, hd⟩ := Option.isSome_iff_exists.mp (hall s (by simp))
    simp only [List.foldlM_cons, hd, List.foldl_cons, Option.getD_some]
    rw [show ((Except.ok (pyMerge d init) : Except String StyleDict) >>= fun x =>
          List.foldlM (fun acc s =>
            match registry s with
            | none => Except.error s
            | some d => Except.ok (pyMerge d acc)) x l) =
        List.foldlM (fun acc s =>
            match registry s with
            | none => Except.error s
            | some d => Except.ok (pyMerge d acc)) (pyMerge d init) l from rfl]
    exact ih (pyMerge d init) (fun t ht => hall t (by simp [ht]))

lemma filterMap_eq_map_getD (registry : String → Option StyleDict)
    (l : List String) (hall : ∀ s ∈ l, (registry s).isSome) :
    l.filterMap registry = l.map (fun s => (registry s).getD []) := by
  induction l with
  | nil => rfl
  | cons s l ih =>
    obtain ⟨d, hd⟩ := Option.isSome_iff_exists.mp (hall s (by simp))
    simp [List.filterMap_cons, hd, ih (fun t ht => hall t (by simp [ht]))]

/-- C1: for every non-empty list of style names all present in the registry,
the dictionary held by the constructed Styles object equals, as a mapping, the
override of the last-listed preset by earlier-listed ones, so for any key the
value from the first-listed preset containing it wins. -/
theorem styles_merge_first_wins (registry : String → Option StyleDict)
    (names : List String) (hne : names ≠ [])
    (hall : ∀ s ∈ names, (registry s).isSome)
    (merged : StyleDict)
    (hok : stylesInit registry names = Except.ok merged)
    (k : String) :
    dlookup merged k = dlookup (specMergedStyle registry names) k := by
  cases names with
  | nil => exact absurd rfl hne
  | cons s0 rest =>
    obtain ⟨d0, hd0⟩ := Option.isSome_iff_exists.mp (hall s0 (by simp))
    cases rest with
    | nil =>
      rw [stylesInit, hd0] at hok
      simp only [if_true, Except.ok.injEq, reduceIte] at hok
      subst hok
      simp [specMergedStyle, List.filterMap_cons, hd0]
    | cons s1 rest1 =>
      rw [stylesInit, hd0] at hok
      simp only [if_neg (List.cons_ne_nil s1 rest1)] at hok
      rw [stylesFoldM_ok registry (s0 :: s1 :: rest1) d0 hall,
        Except.ok.injEq] at hok
      subst hok
      rw [← List.foldl_map (fun s => (registry s).getD [])
        (fun acc d => pyMerge d acc) (s0 :: s1 :: rest1) d0]
      rw [dlookup_foldl_merge]
      rw [specMergedStyle,
        filterMap_eq_map_getD registry (s0 :: s1 :: rest1) hall]
      rw [List.map_cons, List.flatten_cons, hd0, Option.getD_some, dlookup_append]
      exact opt_orElse_self_left _ _

/-- A two-entry synthetic registry of overlapping dictionaries, used to
instantiate the general theorems at concrete inputs. -/
def demoRegistry : String → Option StyleDict := fun s =>
  if s = "a" then some [("k", RcVal.num 1), ("k2", RcVal.num 2)]
  else if s = "b" then some [("k", RcVal.num 3), ("k3", RcVal.num 4)]
  else none

theorem styles_merge_first_wins_witness :
    dlookup [("k", RcVal.num 1), ("k2", RcVal.num 2), ("k", RcVal.num 1),
      ("k2", RcVal.num 2), ("k", RcVal.num 3), ("k3", RcVal.num 4)] "k" =
      dlookup (specMergedStyle demoRegistry ["a", "b"]) "k" :=
  styles_merge_first_wins demoRegistry ["a", "b"] (by decide)
    (by decide) _ rfl "k"

lemma stylesFoldM_error (registry : String → Option StyleDict)
    (l : List String) (init : StyleDict) (s : String)
    (hmem : s ∈ l) (hmiss : registry s = none) :
    (List.foldlM
        (fun acc t =>
          match registry t with
          | none => Except.error t
          | some d => Except.ok (pyMerge d acc))
        init l).toOption = (none : Option StyleDict) := by
  induction l generalizing init with
  | nil => cases hmem
  | cons t l ih =>
    cases hreg : registry t with
    | none =>
      simp only [List.foldlM_cons, hreg]
      rfl
    | some d =>
      have hsl : s ∈ l := by
        rcases List.mem_cons.mp hmem with h | h
        · rw [h, hreg] at hmiss; cases hmiss
        · exact h
      simp only [List.foldlM_cons, hreg]
      exact ih (pyMerge d init) hsl

/-- C7: constructing a Styles object from a non-empty list of names, one of
which is not in the registry, fails with a lookup error that propagates to the
caller. -/
theorem styles_init_unknown_name (registry : String → Option StyleDict)
    (names : List String) (hne : names ≠ [])
    (s : String) (hmem : s ∈ names) (hmiss : registry s = none) :
    (stylesInit registry names).toOption = none := by
  cases names with
  | nil => exact absurd rfl hne
  | cons s0 rest =>
    cases hreg : registry s0 with
    | none =>
      rw [stylesInit, hreg]
      rfl
    | some d0 =>
      cases rest with
      | nil =>
        have : s = s0 := by simpa using hmem
        rw [this, hreg] at hmiss
        cases hmiss
      | cons s1 rest1 =>
        rw [stylesInit, hreg]
        simp only [if_neg (List.cons_ne_nil s1 rest1)]
        exact stylesFoldM_error registry (s0 :: s1 :: rest1) d0 s hmem hmiss

theorem styles_init_unknown_name_witness :
    (stylesInit demoRegistry ["a", "zzz"]).toOption = none :=
  styles_init_unknown_name demoRegistry ["a", "zzz"] (by decide) "zzz"
    (by decide) (by decide)

/-- The matplotlib rcParams configuration, as an association list. -/
abbrev RcConfig := StyleDict

/-- rcParams update by a dictionary: the new bindings win over the current
configuration under the first-binding-wins lookup. -/
def rcUpdate (c : RcConfig) (d : StyleDict) : RcConfig := d ++ c

/-- The function set_export_text_type from themes.py: forces the pdf and ps
font-type flags to 42 and the font family to sans-serif Arial on the global
configuration, so exported vector text stays editable. -/
def set_export_text_type (c : RcConfig) : RcConfig :=
  rcUpdate c
    [("pdf.fonttype", RcVal.num 42), ("ps.fonttype", RcVal.num 42),
     ("font.family", RcVal.str "sans-serif"),
     ("font.sans-serif", RcVal.strs ["Arial"])]

/-- The Styles context-manager object: the theme set by the constructor (or
none after the scope has exited), and the rcParams snapshot captured by
mpl.rc_context on entry (none before the first entry). -/
structure StylesObj where
  theme : Option StyleDict
  rcSnapshot : Option RcConfig

/-- The method enter of Styles from themes.py: mpl.rc_context snapshots the
current rcParams, applies the stored theme (rc_context with rc set to None
applies nothing), and then set_export_text_type forces the export flags.
Returns the updated object and the new global configuration. -/
def stylesEnter (s : StylesObj) (c : RcConfig) : StylesObj × RcConfig :=
  let applied :=
    match s.theme with
    | some t => rcUpdate c t
    | none => c
  (⟨s.theme, some c⟩, set_export_text_type applied)

/-- The method exit of Styles from themes.py, invoked by the with-statement
both on normal completion and when an exception propagates out of the block:
the inner rc_context restores the snapshot taken at entry, and the theme is
set to None. The argument c is the configuration the block left behind; the
restoration ignores it. -/
def stylesExit (s : StylesObj) (c : RcConfig) : StylesObj × RcConfig :=
  (⟨none, s.rcSnapshot⟩, s.rcSnapshot.getD c)

/-- C2: exiting a style scope, regardless of the configuration the scoped
block left behind (hence also when an exception propagated, since the
with-statement invokes the same exit), restores the global configuration
captured at entry, export flags included; and exiting an inner scope entered
while an outer scope is active restores the outer scope's still-active
configuration, not the pre-outer-scope one. -/
theorem styles_scope_restores (s : StylesObj) (c cBlock : RcConfig)
    (sB : StylesObj) (cInner : RcConfig) :
    (stylesExit (stylesEnter s c).1 cBlock).2 = c ∧
    (stylesExit (stylesEnter sB (stylesEnter s c).2).1 cInner).2 =
      (stylesEnter s c).2 := by
  constructor <;> rfl

/-- C10: after a Styles object's scope exits once, its stored theme is None,
so re-entering that same object applies no style-preset overrides: the new
configuration differs from the current one only by the forced export flags. -/
theorem styles_single_use (s : StylesObj) (c c' : RcConfig) :
    (stylesExit s c).1.theme = none ∧
    (stylesEnter (stylesExit s c).1 c').2 = set_export_text_type c' := by
  constructor <;> rfl

/-- A color in RGB space with alpha, from themes.py (channels as exact
rationals). -/
structure Color where
  r : ℚ
  g : ℚ
  b : ℚ
  a : ℚ := 1
  deriving DecidableEq, Repr

/-- ColorRegistry.DESATURATED_RED from themes.py. -/
def DESATURATED_RED : Color := ⟨197/255, 85/255, 94/255, 1⟩

/-- ColorRegistry.DESATURATED_BLUE from themes.py. -/
def DESATURATED_BLUE : Color := ⟨72/255, 136/255, 170/255, 1⟩

/-- ColorRegistry.DESATURATED_GREEN from themes.py. -/
def DESATURATED_GREEN : Color := ⟨0/255, 158/255, 115/255, 1⟩

/-- ColorRegistry.DESATURATED_ORANGE from themes.py. -/
def DESATURATED_ORANGE : Color := ⟨244/255, 154/255, 95/255, 1⟩

/-- ColorRegistry.DESATURATED_PURPLE from themes.py. -/
def DESATURATED_PURPLE : Color := ⟨101/255, 89/255, 152/255, 1⟩

/-- ColorScheme.DEFAULTS from themes.py: the ordered default palette. -/
def DEFAULTS : List Color :=
  [DESATURATED_RED, DESATURATED_BLUE, DESATURATED_GREEN,
   DESATURATED_ORANGE, DESATURATED_PURPLE]

/-- ColorScheme.get_defaults from themes.py: indexes DEFAULTS at idx modulo
its length; Python modulo with a positive divisor is non-negative, which is
the integer emod of Lean. -/
def get_defaults (idx : ℤ) : Color :=
  DEFAULTS.getD (idx % (DEFAULTS.length : ℤ)).toNat ⟨0, 0, 0, 0⟩

/-- C9: get_defaults is total and deterministic on all integers, including
negative ones: the reduced index is always non-negative and in range, the
result is the DEFAULTS entry at idx modulo 5, and the function cycles with
period equal to the palette length. -/
theorem get_defaults_spec (idx : ℤ) :
    0 ≤ idx % (DEFAULTS.length : ℤ) ∧
    idx % (DEFAULTS.length : ℤ) < (DEFAULTS.length : ℤ) ∧
    get_defaults idx = DEFAULTS.getD (idx % (DEFAULTS.length : ℤ)).toNat ⟨0, 0, 0, 0⟩ ∧
    get_defaults (idx + (DEFAULTS.length : ℤ)) = get_defaults idx ∧
    get_defaults idx = get_defaults (idx % (DEFAULTS.length : ℤ)) := by
  have hlen : (DEFAULTS.length : ℤ) = 5 := by rfl
  refine ⟨?_, ?_, rfl, ?_, ?_⟩
  · rw [hlen]; omega
  · rw [hlen]; omega
  · unfold get_defaults
    rw [hlen]
    congr 1
    omega
  · unfold get_defaults
    rw [hlen]
    congr 1
    omega

/-- An axes rectangle in normalized figure coordinates, as passed to
fig.add_axes: left, bottom, width, height. -/
structure AxesRect where
  left : ℚ
  bottom : ℚ
  width : ℚ
  height : ℚ
  deriving DecidableEq, Repr

/-- fixed_size_subplots from themes.py: the figure size in inches and the
nrows-by-ncols grid of axes rectangles, each computed by the closed-form
offsets of the source. -/
def fixed_size_subplots (nrows ncols : ℕ)
    (margin header subwidth subheight : ℚ) :
    (ℚ × ℚ) × List (List AxesRect) :=
  let m := margin
  let h := header
  let a := subheight
  let b := subwidth
  let width : ℚ := (ncols : ℚ) * (m + b + m)
  let height : ℚ := (nrows : ℚ) * (h + a + h)
  ((width, height),
    (List.range nrows).map fun (i : ℕ) =>
      (List.range ncols).map fun (j : ℕ) =>
        ⟨(m + (j : ℚ) * (2 * m + b)) / width,
         (height - ((i : ℚ) + 1) * (2 * h + a) + h) / height,
         b / width,
         a / height⟩)

lemma getD_map_range {α : Type} (n : ℕ) (f : ℕ → α) (d : α) (i : ℕ)
    (hi : i < n) :
    ((List.range n).map f).getD i d = f i := by
  simp [List.getD, List.getElem?_map, List.getElem?_range, hi]

/-- C8: for positive row and column counts, fixed_size_subplots yields total
width ncols times (2 margin + subwidth) and total height nrows times
(2 header + subheight), a grid of nrows rows of ncols rectangles, and every
cell has normalized extent (subwidth over width, subheight over height) with
the closed-form origin. -/
theorem fixed_size_subplots_spec (nrows ncols : ℕ)
    (margin header subwidth subheight : ℚ)
    (hr : 0 < nrows) (hc : 0 < ncols)
    (i j : ℕ) (hi : i < nrows) (hj : j < ncols) :
    (fixed_size_subplots nrows ncols margin header subwidth subheight).1 =
      (ncols * (2 * margin + subwidth), nrows * (2 * header + subheight)) ∧
    (fixed_size_subplots nrows ncols margin header subwidth subheight).2.length
      = nrows ∧
    (∀ row ∈ (fixed_size_subplots nrows ncols margin header subwidth
        subheight).2, row.length = ncols) ∧
    ((fixed_size_subplots nrows ncols margin header subwidth
        subheight).2.getD i []).getD j ⟨0, 0, 0, 0⟩ =
      ⟨(margin + j * (2 * margin + subwidth)) /
          (ncols * (2 * margin + subwidth)),
        (nrows * (2 * header + subheight) -
            (i + 1) * (2 * header + subheight) + header) /
          (nrows * (2 * header + subheight)),
        subwidth / (ncols * (2 * margin + subwidth)),
        subheight / (nrows * (2 * header + subheight))⟩ := by
  have e1 : (ncols : ℚ) * (margin + subwidth + margin) =
      ncols * (2 * margin + subwidth) := by ring
  have e2 : (nrows : ℚ) * (header + subheight + header) =
      nrows * (2 * header + subheight) := by ring
  refine ⟨?_, ?_, ?_, ?_⟩
  · show (((ncols : ℚ) * (margin + subwidth + margin),
        (nrows : ℚ) * (header + subheight + header)) = _)
    rw [Prod.mk.injEq]
    exact ⟨e1, e2⟩
  · simp [fixed_size_subplots]
  · intro row hrow
    simp only [fixed_size_subplots, List.mem_map] at hrow
    obtain ⟨i', _, rfl⟩ := hrow
    simp
  · have hgrid : (fixed_size_subplots nrows ncols margin header subwidth
        subheight).2 =
        (List.range nrows).map (fun (i : ℕ) =>
          (List.range ncols).map fun (j : ℕ) =>
            (⟨(margin + (j : ℚ) * (2 * margin + subwidth)) /
                ((ncols : ℚ) * (margin + subwidth + margin)),
              ((nrows : ℚ) * (header + subheight + header) -
                  ((i : ℚ) + 1) * (2 * header + subheight) + header) /
                ((nrows : ℚ) * (header + subheight + header)),
              subwidth / ((ncols : ℚ) * (margin + subwidth + margin)),
              subheight / ((nrows : ℚ) * (header + subheight + header))⟩ :
                AxesRect)) := rfl
    rw [hgrid, getD_map_range nrows _ [] i hi,
      getD_map_range ncols _ (⟨0, 0, 0, 0⟩ : AxesRect) j hj, e1, e2]

theorem fixed_size_subplots_witness :
    (fixed_size_subplots 2 3 (1/2) (1/2) 2 (7/4)).1 = (9, 11/2) ∧
    ((fixed_size_subplots 2 3 (1/2) (1/2) 2 (7/4)).2.getD 1 []).getD 2
        ⟨0, 0, 0, 0⟩ =
      ⟨(1/2 + 2 * (2 * (1/2) + 2)) / 9, (11/2 - 2 * (2 * (1/2) + 7/4) + 1/2) / (11/2),
        2/9, (7/4) / (11/2)⟩ := by
  have h := fixed_size_subplots_spec 2 3 (1/2) (1/2) 2 (7/4)
    (by decide) (by decide) 1 2 (by decide) (by decide)
  refine ⟨?_, ?_⟩
  · rw [h.1]
    norm_num [Prod.mk.injEq]
  · rw [h.2.2.2, AxesRect.mk.injEq]
    norm_num

/-- The Options IntEnum from utils.py: SKIP is 0, SHOW is 1, SAVE is 2. -/
inductive Options where
  | SKIP
  | SHOW
  | SAVE
  deriving DecidableEq, Repr

/-- The integer value of an Options member, per the IntEnum definition. -/
def Options.toInt : Options → ℕ
  | .SKIP => 0
  | .SHOW => 1
  | .SAVE => 2

/-- Boolean ordinal comparison of Options members, as the IntEnum comparison
of utils.py performs on the underlying integers. -/
def Options.le (x y : Options) : Bool := Nat.ble x.toInt y.toInt

/-- What the constructed file sink looks like in ScienceLogger.__init__ of
utils.py: the log file is created empty when absent, and a FileHandler is
attached in append mode with the raw-text format string. -/
structure FileSinkSpec where
  createIfAbsent : Bool
  mode : String
  fmt : String
  deriving DecidableEq, Repr

/-- The file-sink branch of ScienceLogger.__init__ from utils.py: a file sink
is attached exactly when some option among statistics and integrity is at
least SAVE; the figures threshold is not consulted by this branch (it receives
the figures argument but does not read it here). -/
def scienceLoggerFileSink (figures statistics integrity : Options) :
    Option FileSinkSpec :=
  if [statistics, integrity].any (fun o => Options.le .SAVE o) then
    some ⟨true, "a", "%(message)s"⟩
  else none

/-- Counterexample to C3 as stated: with the figures threshold at SAVE and
both the statistics and integrity thresholds at SKIP, the claim asserts a file
sink is attached, but ScienceLogger.__init__ tests only the statistics and
integrity thresholds, so no file sink is attached. -/
theorem science_logger_file_sink_cex :
    scienceLoggerFileSink Options.SAVE Options.SKIP Options.SKIP = none := by
  decide

/-- C3 amended: a file sink writing raw message text in append mode, with the
log file created empty when absent, is attached exactly when the statistics or
the integrity threshold meets or exceeds SAVE; the figures threshold plays no
part in this decision. -/
theorem science_logger_file_sink_spec (figures statistics integrity : Options) :
    (scienceLoggerFileSink figures statistics integrity =
        some ⟨true, "a", "%(message)s"⟩ ↔
      (Options.le .SAVE statistics = true ∨
        Options.le .SAVE integrity = true)) ∧
    (scienceLoggerFileSink figures statistics integrity = none ↔
      (Options.le .SAVE statistics = false ∧
        Options.le .SAVE integrity = false)) := by
  cases statistics <;> cases integrity <;>
    simp [scienceLoggerFileSink, Options.le, Options.toInt] <;> decide

/-- A message passed to the logger: either a plain string or a
two-dimensional tabular value (a polars or pandas DataFrame, modelled as its
numeric grid). -/
inductive LogMessage where
  | plain (s : String)
  | frame (t : List (List ℚ))
  deriving DecidableEq, Repr

/-- The fixed-width demarcator of ScienceLogger from utils.py: a full line of
dashes of the line length 80. -/
def DEMARCATOR : String := String.mk (List.replicate 80 (Char.ofNat 45))

/-- The banner wrapping used by stats and integrity in utils.py: the
demarcator line above and below the body. -/
def banner (body : String) : String :=
  DEMARCATOR ++ "\n" ++ body ++ "\n" ++ DEMARCATOR

/-- ScienceLogger.stats from utils.py, with the external table formatter
(statistics_table_to_file over tabulate) passed as a parameter. Returns the
record handed to the logger (none for the early return) paired with the
number of calls made to the table formatter. Below SHOW it is a no-op; at or
above SHOW a tabular message is converted by the formatter, a plain string is
logged as is, both wrapped in the banner. -/
def stats (statistics : Options) (tableFormatter : List (List ℚ) → String)
    (message : LogMessage) : Option String × ℕ :=
  if Nat.blt statistics.toInt Options.SHOW.toInt then (none, 0)
  else
    match message with
    | .plain s => (some (banner s), 0)
    | .frame t => (some (banner (tableFormatter t)), 1)

/-- ScienceLogger.integrity from utils.py: below SHOW a no-op, otherwise the
message is interpolated into the banner as is — a tabular value is rendered by
the Python string conversion (passed here as frameStr), and the table
formatter is never invoked, hence the structurally zero call count. -/
def integrity (integrityOpt : Options) (frameStr : List (List ℚ) → String)
    (message : LogMessage) : Option String × ℕ :=
  if Nat.blt integrityOpt.toInt Options.SHOW.toInt then (none, 0)
  else
    (some (banner (match message with
      | .plain s => s
      | .frame t => frameStr t)), 0)

/-- Counterexample to C4 as stated: integrity at threshold SHOW, given a
two-dimensional tabular value, makes zero calls to the table formatter and
logs the plain string rendering of the frame inside the banner — the tabular
value is not converted to a formatted textual table. -/
theorem integrity_no_table_conversion_cex :
    (integrity Options.SHOW (fun _ => "raw-frame-text")
        (LogMessage.frame [[1]])).2 = 0 ∧
    (integrity Options.SHOW (fun _ => "raw-frame-text")
        (LogMessage.frame [[1]])).1 = some (banner "raw-frame-text") := by
  exact ⟨rfl, rfl⟩

/-- C4 amended: with the respective threshold below SHOW both calls are
no-ops returning normally with zero table-formatter calls; at or above SHOW,
stats converts a tabular value with the table formatter (exactly one call)
and logs it in the banner, logging a plain string unconverted, while
integrity logs the message in the banner without ever invoking the table
formatter. -/
theorem stats_integrity_spec (o : Options)
    (tableFormatter frameStr : List (List ℚ) → String) (m : LogMessage) :
    (Nat.blt o.toInt Options.SHOW.toInt = true →
      stats o tableFormatter m = (none, 0) ∧
      integrity o frameStr m = (none, 0)) ∧
    (Nat.blt o.toInt Options.SHOW.toInt = false →
      (∀ t, m = .frame t →
        stats o tableFormatter m = (some (banner (tableFormatter t)), 1)) ∧
      (∀ s, m = .plain s → stats o tableFormatter m = (some (banner s), 0)) ∧
      (integrity o frameStr m).2 = 0 ∧
      (integrity o frameStr m).1 =
        some (banner (match m with
          | .plain s => s
          | .frame t => frameStr t))) := by
  cases o <;>
    refine ⟨fun hlt => ?_, fun hge => ?_⟩ <;>
      first
        | exact ⟨rfl, rfl⟩
        | exact absurd hlt (by decide)
        | exact absurd hge (by decide)
        | refine ⟨fun t ht => ?_, fun s hs => ?_, rfl, rfl⟩ <;>
            subst_vars <;> rfl

theorem stats_integrity_spec_witness :
    stats Options.SKIP (fun _ => "table") (LogMessage.frame [[1]]) =
        (none, 0) ∧
    integrity Options.SKIP (fun _ => "frame") (LogMessage.frame [[1]]) =
        (none, 0) :=
  (stats_integrity_spec Options.SKIP (fun _ => "table") (fun _ => "frame")
      (LogMessage.frame [[1]])).1 (by decide)

/-- The observable outcome of ScienceLogger.find_data from utils.py: whether a
FileNotFoundError is raised, the returned value otherwise, and whether a
warning-level or error-level record was logged. -/
structure FindDataResult where
  raisesNotFound : Bool
  returned : Option String
  warningLogged : Bool
  errorLogged : Bool
  deriving DecidableEq, Repr

/-- ScienceLogger.find_data from utils.py, over the set of distinct paths
matching the recursive glob star-name-star under the data directory (the glob
itself is the file system, passed as the list of matches). More than one
match logs a warning and returns None; zero matches logs an error and raises
FileNotFoundError; exactly one match pops and returns that path. -/
def find_data (ms : List String) : FindDataResult :=
  if 1 < ms.length then
    ⟨false, none, true, false⟩
  else if ms.length = 0 then
    ⟨true, none, false, true⟩
  else
    ⟨false, ms.head?, false, false⟩

/-- C5: find_data with zero matches raises the not-found error; with exactly
one match it returns that path without raising; with two or more matches it
logs a warning-level record and returns the sentinel None instead of
raising. -/
theorem find_data_spec (ms : List String) :
    (ms = [] →
      find_data ms = ⟨true, none, false, true⟩) ∧
    (∀ p, ms = [p] →
      find_data ms = ⟨false, some p, false, false⟩) ∧
    (2 ≤ ms.length →
      find_data ms = ⟨false, none, true, false⟩) := by
  refine ⟨fun h => ?_, fun p h => ?_, fun h => ?_⟩
  · subst h; rfl
  · subst h; rfl
  · unfold find_data
    rw [if_pos (by omega)]

theorem find_data_spec_witness :
    find_data ["run1_sample.csv", "run2_sample.csv"] =
      ⟨false, none, true, false⟩ :=
  (find_data_spec ["run1_sample.csv", "run2_sample.csv"]).2.2 (by decide)

/-- The data_directory property of ScienceLogger from utils.py; paths are
modelled as their component lists. -/
def data_directory (directory : List String) (name : String) : List String :=
  directory ++ [name, "data"]

/-- The figures_directory property of ScienceLogger from utils.py. -/
def figures_directory (directory : List String) (name : String) :
    List String :=
  directory ++ [name, "figures"]

/-- The stats_file property of ScienceLogger from utils.py: the log file
lives in the stats subfolder of the run folder and is named with the
stats-txt suffix. -/
def stats_file (directory : List String) (name : String) : List String :=
  directory ++ [name, "stats", name ++ "_stats.txt"]

/-- Counterexample to C6 as stated: for a concrete base and run name the log
file path is not base, name, name_log.txt — it is base, name, stats,
name_stats.txt. -/
theorem stats_file_cex :
    stats_file ["base"] "run" ≠ ["base", "run", "run_log.txt"] := by
  decide

/-- C6 amended: the derived paths are the data and figures folders directly
under the run folder, and the log file is the name_stats.txt file inside the
stats subfolder of the run folder — never the name_log.txt file directly in
the run folder. -/
theorem science_logger_paths (directory : List String) (name : String) :
    data_directory directory name = directory ++ [name] ++ ["data"] ∧
    figures_directory directory name = directory ++ [name] ++ ["figures"] ∧
    stats_file directory name =
      directory ++ [name] ++ ["stats", name ++ "_stats.txt"] ∧
    stats_file directory name ≠
      directory ++ [name] ++ [name ++ "_log.txt"] := by
  refine ⟨by simp [data_directory], by simp [figures_directory],
    by simp [stats_file], fun h => ?_⟩
  have := congrArg List.length h
  simp [stats_file] at this
